import Mathlib

/-!
Shallow embedding of the Z80 emulator core (`Z80Core`): registers, flags,
64K memory, stack, breakpoints, fetch-execute stepping and the run loop.
Machine words are modelled as `Nat` with explicit masking (`&&& 0xFF`,
`&&& 0xFFFF`) exactly where the source masks; the one place the source can
produce a negative intermediate (`(sp - 2) & 0xFFFF`) is modelled with
`Int` and `emod`.
-/

namespace Z80

/-- The six flag fields of the `flags` / `flags_prime` objects. -/
structure Flags where
  s : Nat
  z : Nat
  h : Nat
  pv : Nat
  n : Nat
  c : Nat
deriving Repr, DecidableEq

/-- The all-zero flags object. -/
def Flags.zero : Flags := ⟨0, 0, 0, 0, 0, 0⟩

/-- The whole mutable state of a `Z80Core` instance: every field of
`this.registers`, the memory array (as a function from addresses to cell
contents), the execution state and the debug state. -/
structure Machine where
  a : Nat
  b : Nat
  c : Nat
  d : Nat
  e : Nat
  h : Nat
  l : Nat
  a_prime : Nat
  b_prime : Nat
  c_prime : Nat
  d_prime : Nat
  e_prime : Nat
  h_prime : Nat
  l_prime : Nat
  i : Nat
  r : Nat
  ix : Nat
  iy : Nat
  sp : Nat
  pc : Nat
  flags : Flags
  flags_prime : Flags
  memory : Nat → Nat
  halted : Bool
  interruptsEnabled : Bool
  breakpoints : List Nat
  isDebugging : Bool
  stepMode : Bool

/-- The constructor: every register and memory cell zero, `halted` and
`interruptsEnabled` false, empty breakpoint set. -/
def mkZ80 : Machine where
  a := 0
  b := 0
  c := 0
  d := 0
  e := 0
  h := 0
  l := 0
  a_prime := 0
  b_prime := 0
  c_prime := 0
  d_prime := 0
  e_prime := 0
  h_prime := 0
  l_prime := 0
  i := 0
  r := 0
  ix := 0
  iy := 0
  sp := 0
  pc := 0
  flags := Flags.zero
  flags_prime := Flags.zero
  memory := fun _ => 0
  halted := false
  interruptsEnabled := false
  breakpoints := []
  isDebugging := false
  stepMode := false

/-- `getBC() { return (this.registers.b << 8) | this.registers.c; }` -/
def getBC (m : Machine) : Nat := (m.b <<< 8) ||| m.c

/-- `getDE()` -/
def getDE (m : Machine) : Nat := (m.d <<< 8) ||| m.e

/-- `getHL()` -/
def getHL (m : Machine) : Nat := (m.h <<< 8) ||| m.l

/-- `setBC(value)`: each half masked to 8 bits. -/
def setBC (m : Machine) (value : Nat) : Machine :=
  { m with b := (value >>> 8) &&& 0xFF, c := value &&& 0xFF }

/-- `setDE(value)` -/
def setDE (m : Machine) (value : Nat) : Machine :=
  { m with d := (value >>> 8) &&& 0xFF, e := value &&& 0xFF }

/-- `setHL(value)` -/
def setHL (m : Machine) (value : Nat) : Machine :=
  { m with h := (value >>> 8) &&& 0xFF, l := value &&& 0xFF }

/-- Packing of a flags object into the F byte:
`(s << 7) | (z << 6) | (h << 4) | (pv << 2) | (n << 1) | c`. -/
def packF (f : Flags) : Nat :=
  (f.s <<< 7) ||| (f.z <<< 6) ||| (f.h <<< 4) ||| (f.pv <<< 2) ||| (f.n <<< 1) ||| f.c

/-- `getF()` -/
def getF (m : Machine) : Nat := packF m.flags

/-- Unpacking of a byte into a flags object, per `setF`. -/
def unpackF (value : Nat) : Flags where
  s := (value &&& 0x80) >>> 7
  z := (value &&& 0x40) >>> 6
  h := (value &&& 0x10) >>> 4
  pv := (value &&& 0x04) >>> 2
  n := (value &&& 0x02) >>> 1
  c := value &&& 0x01

/-- `setF(value)` -/
def setF (m : Machine) (value : Nat) : Machine :=
  { m with flags := unpackF value }

/-- `exchangeRegisterSets()`: swaps each primary 8-bit register with its
shadow counterpart and swaps the flags object with the shadow flags. -/
def exchangeRegisterSets (m : Machine) : Machine :=
  { m with
    a := m.a_prime, a_prime := m.a
    b := m.b_prime, b_prime := m.b
    c := m.c_prime, c_prime := m.c
    d := m.d_prime, d_prime := m.d
    e := m.e_prime, e_prime := m.e
    h := m.h_prime, h_prime := m.h
    l := m.l_prime, l_prime := m.l
    flags := m.flags_prime, flags_prime := m.flags }

/-- `readByte(address)`: `this.memory[address & 0xFFFF]`. -/
def readByte (m : Machine) (address : Nat) : Nat :=
  m.memory (address &&& 0xFFFF)

/-- `writeByte(address, value)`: `this.memory[address & 0xFFFF] = value & 0xFF`. -/
def writeByte (m : Machine) (address value : Nat) : Machine :=
  { m with memory := fun ad => if ad = address &&& 0xFFFF then value &&& 0xFF else m.memory ad }

/-- `readWord(address)`: little-endian, high byte from `(address + 1) & 0xFFFF`. -/
def readWord (m : Machine) (address : Nat) : Nat :=
  let low := readByte m address
  let high := readByte m ((address + 1) &&& 0xFFFF)
  (high <<< 8) ||| low

/-- `writeWord(address, value)`: two `writeByte` calls, low byte first. -/
def writeWord (m : Machine) (address value : Nat) : Machine :=
  writeByte (writeByte m address (value &&& 0xFF)) ((address + 1) &&& 0xFFFF) ((value >>> 8) &&& 0xFF)

/-- `pushStack(value)`: `sp = (sp - 2) & 0xFFFF` then `writeWord(sp, value)`.
The JS subtraction can go negative, and `& 0xFFFF` of a negative 32-bit
integer is its nonnegative residue mod 2^16; this is modelled with `Int.emod`
(exact for `sp < 2^31`). -/
def pushStack (m : Machine) (value : Nat) : Machine :=
  let sp1 := (((m.sp : Int) - 2) % 65536).toNat
  writeWord { m with sp := sp1 } sp1 value

/-- `popStack()`: reads the word at `sp`, then `sp = (sp + 2) & 0xFFFF`;
returns the value read together with the updated machine. -/
def popStack (m : Machine) : Nat × Machine :=
  (readWord m m.sp, { m with sp := (m.sp + 2) &&& 0xFFFF })

/-- `reset()`: zeroes every field of `this.registers` (the flag objects
included), then sets `pc = 0`, `sp = 0xFFFF`, `halted = false`,
`interruptsEnabled = false`.  Memory, breakpoints and the remaining debug
fields are not touched. -/
def reset (m : Machine) : Machine :=
  { m with
    a := 0, b := 0, c := 0, d := 0, e := 0, h := 0, l := 0
    a_prime := 0, b_prime := 0, c_prime := 0, d_prime := 0
    e_prime := 0, h_prime := 0, l_prime := 0
    i := 0, r := 0, ix := 0, iy := 0
    flags := Flags.zero, flags_prime := Flags.zero
    pc := 0, sp := 0xFFFF
    halted := false, interruptsEnabled := false }

/-- `loadProgram(program, startAddress)`: sequential `writeByte` for each
byte of the program. -/
def loadProgram : Machine → List Nat → Nat → Machine
  | m, [], _ => m
  | m, b0 :: rest, address => loadProgram (writeByte m address b0) rest (address + 1)

/-- `setBreakpoint(address)`: `Set.add` of the masked address (a JS `Set`
ignores an add of an element already present). -/
def setBreakpoint (m : Machine) (address : Nat) : Machine :=
  let ad := address &&& 0xFFFF
  if m.breakpoints.contains ad then m else { m with breakpoints := m.breakpoints ++ [ad] }

/-- `clearBreakpoint(address)`: `Set.delete` of the masked address. -/
def clearBreakpoint (m : Machine) (address : Nat) : Machine :=
  { m with breakpoints := m.breakpoints.filter (fun ad => ad ≠ address &&& 0xFFFF) }

/-- `clearAllBreakpoints()` -/
def clearAllBreakpoints (m : Machine) : Machine :=
  { m with breakpoints := [] }

/-- `executeInstruction(opcode)`: NOP (0x00), LD A,n (0x3E) and HALT (0x76);
every other opcode falls through with no effect. -/
def executeInstruction (m : Machine) (opcode : Nat) : Machine :=
  if opcode = 0x00 then m
  else if opcode = 0x3E then
    let value := readByte m m.pc
    { m with pc := (m.pc + 1) &&& 0xFFFF, a := value }
  else if opcode = 0x76 then
    { m with halted := true }
  else m

/-- `step()`: returns false and does nothing when halted; otherwise fetches
the byte at `pc`, advances `pc` by one (mod 2^16), executes the opcode and
returns true. -/
def step (m : Machine) : Bool × Machine :=
  if m.halted then (false, m)
  else
    let opcode := readByte m m.pc
    (true, executeInstruction { m with pc := (m.pc + 1) &&& 0xFFFF } opcode)

/-- The `while` loop of `run()`, with a fuel bound (the source loop can
diverge) and instrumented with a count of the `step()` calls made; the
count does not influence control flow.  `none` means the fuel ran out
before the loop exited. -/
def runLoop : Nat → Machine → Nat → Option (Machine × Nat)
  | 0, _, _ => none
  | fuel + 1, m, count =>
    if m.halted then some (m, count)
    else if m.breakpoints.contains m.pc then some ({ m with isDebugging := true }, count)
    else runLoop fuel (step m).2 (count + 1)

/-- `run()`: sets `isDebugging = false`, then loops. -/
def run (fuel : Nat) (m : Machine) : Option Machine :=
  (runLoop fuel { m with isDebugging := false } 0).map Prod.fst

/-- `run()` together with the number of instructions it executed. -/
def runCount (fuel : Nat) (m : Machine) : Option (Machine × Nat) :=
  runLoop fuel { m with isDebugging := false } 0

/-- A partial update of the scalar keys of `state.registers` accepted by
`setState` (each key either absent or carrying a number).  The nested
`flags` / `flags_prime` keys of `state.registers` are not modelled. -/
structure RegistersUpdate where
  a : Option Nat := none
  b : Option Nat := none
  c : Option Nat := none
  d : Option Nat := none
  e : Option Nat := none
  h : Option Nat := none
  l : Option Nat := none
  a_prime : Option Nat := none
  b_prime : Option Nat := none
  c_prime : Option Nat := none
  d_prime : Option Nat := none
  e_prime : Option Nat := none
  h_prime : Option Nat := none
  l_prime : Option Nat := none
  i : Option Nat := none
  r : Option Nat := none
  ix : Option Nat := none
  iy : Option Nat := none
  sp : Option Nat := none
  pc : Option Nat := none

/-- A partial update of `state.flags` accepted by `setState`. -/
structure FlagsUpdate where
  s : Option Nat := none
  z : Option Nat := none
  h : Option Nat := none
  pv : Option Nat := none
  n : Option Nat := none
  c : Option Nat := none

/-- The `state` argument of `setState`. -/
structure StateUpdate where
  registers : Option RegistersUpdate := none
  flags : Option FlagsUpdate := none
  pc : Option Nat := none
  sp : Option Nat := none
  halted : Option Bool := none
  interruptsEnabled : Option Bool := none

/-- `setState(state)`: copies each present `state.registers` key into
`this.registers` verbatim (no masking), each present `state.flags` key into
`this.registers.flags` verbatim, then applies `state.pc` and `state.sp`
masked with `& 0xFFFF`, and `state.halted` / `state.interruptsEnabled`. -/
def setState (m : Machine) (st : StateUpdate) : Machine :=
  let m1 : Machine :=
    match st.registers with
    | none => m
    | some ru =>
      { m with
        a := ru.a.getD m.a, b := ru.b.getD m.b, c := ru.c.getD m.c
        d := ru.d.getD m.d, e := ru.e.getD m.e, h := ru.h.getD m.h
        l := ru.l.getD m.l
        a_prime := ru.a_prime.getD m.a_prime, b_prime := ru.b_prime.getD m.b_prime
        c_prime := ru.c_prime.getD m.c_prime, d_prime := ru.d_prime.getD m.d_prime
        e_prime := ru.e_prime.getD m.e_prime, h_prime := ru.h_prime.getD m.h_prime
        l_prime := ru.l_prime.getD m.l_prime
        i := ru.i.getD m.i, r := ru.r.getD m.r
        ix := ru.ix.getD m.ix, iy := ru.iy.getD m.iy
        sp := ru.sp.getD m.sp, pc := ru.pc.getD m.pc }
  let m2 : Machine :=
    match st.flags with
    | none => m1
    | some fu =>
      { m1 with flags :=
        { s := fu.s.getD m1.flags.s, z := fu.z.getD m1.flags.z
          h := fu.h.getD m1.flags.h, pv := fu.pv.getD m1.flags.pv
          n := fu.n.getD m1.flags.n, c := fu.c.getD m1.flags.c } }
  let m3 : Machine :=
    match st.pc with
    | none => m2
    | some v => { m2 with pc := v &&& 0xFFFF }
  let m4 : Machine :=
    match st.sp with
    | none => m3
    | some v => { m3 with sp := v &&& 0xFFFF }
  let m5 : Machine :=
    match st.halted with
    | none => m4
    | some v => { m4 with halted := v }
  match st.interruptsEnabled with
  | none => m5
  | some v => { m5 with interruptsEnabled := v }

/-- Every 8-bit register holds a value in [0, 255] and every 16-bit register
holds a value in [0, 65535]. -/
abbrev RegInv (m : Machine) : Prop :=
  m.a < 256 ∧ m.b < 256 ∧ m.c < 256 ∧ m.d < 256 ∧ m.e < 256 ∧ m.h < 256 ∧ m.l < 256 ∧
  m.a_prime < 256 ∧ m.b_prime < 256 ∧ m.c_prime < 256 ∧ m.d_prime < 256 ∧
  m.e_prime < 256 ∧ m.h_prime < 256 ∧ m.l_prime < 256 ∧
  m.i < 256 ∧ m.r < 256 ∧
  m.ix < 65536 ∧ m.iy < 65536 ∧ m.sp < 65536 ∧ m.pc < 65536

/-- Every memory cell the emulator can address holds a byte. -/
def MemInv (m : Machine) : Prop := ∀ ad : Nat, m.memory (ad &&& 0xFFFF) < 256

/-- The register-width invariant together with the memory-byte invariant. -/
abbrev Inv (m : Machine) : Prop := RegInv m ∧ MemInv m

/-- Each of the six flags holds a boolean value (0 or 1). -/
abbrev FlagsBool (f : Flags) : Prop :=
  f.s ≤ 1 ∧ f.z ≤ 1 ∧ f.h ≤ 1 ∧ f.pv ≤ 1 ∧ f.n ≤ 1 ∧ f.c ≤ 1

/-- A machine with a sample boolean flag setting (S=1, H=1, C=1). -/
def mFlags : Machine := { mkZ80 with flags := ⟨1, 0, 1, 0, 0, 1⟩ }

/-- A machine whose memory holds the HALT opcode at the (zero) PC. -/
def mHaltOp : Machine := writeByte mkZ80 0 0x76

/-- A machine whose memory holds an unimplemented opcode at the (zero) PC. -/
def mUnknownOp : Machine := writeByte mkZ80 0 0x01

/-- A machine with SP = 1 (so a push wraps below address 0). -/
def mSpOne : Machine := { mkZ80 with sp := 1 }

/-- The `setState` argument `{ registers: { a: 256 } }`. -/
def overflowUpdate : StateUpdate := { registers := some { a := some 256 } }

/-- A reset machine with a breakpoint at its current PC (0x0000) and NOP
bytes everywhere in memory. -/
def mBpAtPc : Machine := setBreakpoint (reset mkZ80) 0

/-- The breakpoint scenario: breakpoint at 0x0004, four NOPs then HALT
loaded from 0x0000, then reset. -/
def mBpScenario : Machine :=
  reset (loadProgram (setBreakpoint mkZ80 4) [0x00, 0x00, 0x00, 0x00, 0x76] 0)

end Z80

namespace Z80.Snapshot

/-!
Reference-level model of `getState()`.  In the source the two nested flag
objects `this.registers.flags` and `this.registers.flags_prime` are heap
objects, and `getState` builds its `registers` entry with the object spread
`{ ...this.registers }`, which copies scalar register fields by value but
copies the nested flag entries as references to the same two live objects
(spread is a shallow copy).  The `flags` entry of the snapshot is built with
`{ ...this.registers.flags }`, a genuine value copy since the flag object
holds only numbers.  The model makes the two heap cells and the references
into them explicit.
-/

/-- A reference to one of the two flag objects allocated by the constructor. -/
inductive FRef
  | cell0
  | cell1
deriving Repr, DecidableEq

/-- The `this.registers` object, with the nested `flags` / `flags_prime`
entries as references into the heap of flag objects. -/
structure Registers where
  a : Nat
  b : Nat
  c : Nat
  d : Nat
  e : Nat
  h : Nat
  l : Nat
  a_prime : Nat
  b_prime : Nat
  c_prime : Nat
  d_prime : Nat
  e_prime : Nat
  h_prime : Nat
  l_prime : Nat
  i : Nat
  r : Nat
  ix : Nat
  iy : Nat
  sp : Nat
  pc : Nat
  flags : FRef
  flags_prime : FRef
deriving Repr, DecidableEq

/-- A `Z80Core` instance at the reference level: the two heap-allocated flag
objects plus the `registers` object and the execution state. -/
structure JSMachine where
  heap0 : Flags
  heap1 : Flags
  registers : Registers
  halted : Bool
  interruptsEnabled : Bool
deriving Repr, DecidableEq

/-- Dereference a flag-object reference. -/
def deref (m : JSMachine) : FRef → Flags
  | .cell0 => m.heap0
  | .cell1 => m.heap1

/-- The constructor: both flag objects zeroed, `registers.flags` referring to
the first and `registers.flags_prime` to the second, all scalars zero. -/
def mkJS : JSMachine where
  heap0 := Flags.zero
  heap1 := Flags.zero
  registers :=
    { a := 0, b := 0, c := 0, d := 0, e := 0, h := 0, l := 0
      a_prime := 0, b_prime := 0, c_prime := 0, d_prime := 0
      e_prime := 0, h_prime := 0, l_prime := 0
      i := 0, r := 0, ix := 0, iy := 0, sp := 0, pc := 0
      flags := .cell0, flags_prime := .cell1 }
  halted := false
  interruptsEnabled := false

/-- The object returned by `getState()`. -/
structure StateSnapshot where
  registers : Registers
  pc : Nat
  sp : Nat
  flags : Flags
  halted : Bool
  interruptsEnabled : Bool
deriving Repr, DecidableEq

/-- `getState()`: `registers: { ...this.registers }` (shallow copy — the
nested flag entries remain references to the live objects),
`flags: { ...this.registers.flags }` (value copy), plus `pc`, `sp`,
`halted`, `interruptsEnabled` by value. -/
def getState (m : JSMachine) : StateSnapshot where
  registers := m.registers
  pc := m.registers.pc
  sp := m.registers.sp
  flags := deref m m.registers.flags
  halted := m.halted
  interruptsEnabled := m.interruptsEnabled

/-- Effect on the live machine of a caller assigning
`snapshot.registers.flags.s = v`: a write through the reference held in the
snapshot. -/
def writeSnapFlagS (m : JSMachine) (snap : StateSnapshot) (v : Nat) : JSMachine :=
  match snap.registers.flags with
  | .cell0 => { m with heap0 := { m.heap0 with s := v } }
  | .cell1 => { m with heap1 := { m.heap1 with s := v } }

/-- The live machine's `registers.flags.s`. -/
def liveFlagS (m : JSMachine) : Nat := (deref m m.registers.flags).s

end Z80.Snapshot

namespace Z80

/-- A byte-masked value is below 256. -/
theorem and_ff_lt (x : Nat) : x &&& 0xFF < 256 := by
  have h := Nat.and_le_right (n := x) (m := 0xFF)
  omega

/-- A word-masked value is below 65536. -/
theorem and_ffff_lt (x : Nat) : x &&& 0xFFFF < 65536 := by
  have h := Nat.and_le_right (n := x) (m := 0xFFFF)
  omega

/-- Masking with `0xFF` is reduction mod 2^8. -/
theorem land_ff (x : Nat) : x &&& 0xFF = x % 256 := by
  have h := Nat.and_pow_two_sub_one_eq_mod x 8
  norm_num at h
  exact h

/-- Masking with `0xFFFF` is reduction mod 2^16. -/
theorem land_ffff (x : Nat) : x &&& 0xFFFF = x % 65536 := by
  have h := Nat.and_pow_two_sub_one_eq_mod x 16
  norm_num at h
  exact h

/-- Composing a high byte shifted left by 8 with a low byte below 256 is
plain arithmetic. -/
theorem shiftLeft8_or (x l : Nat) (hl : l < 256) : (x <<< 8) ||| l = x * 256 + l := by
  have hb : l < 2 ^ 8 := by norm_num [hl]
  calc (x <<< 8) ||| l = 2 ^ 8 * x ||| l := by rw [Nat.shiftLeft_eq, mul_comm]
    _ = 2 ^ 8 * x + l := (Nat.mul_add_lt_is_or hb x).symm
    _ = x * 256 + l := by ring

/-- A word written with `writeWord` reads back with `readWord` at the same
address as the value reduced mod 2^16, for every address (the two byte cells
are always distinct mod 2^16). -/
theorem readWord_writeWord (m : Machine) (a v : Nat) :
    readWord (writeWord m a v) a = v % 65536 := by
  have hlow : readByte (writeWord m a v) a = v % 256 := by
    simp only [readByte, writeWord, writeByte, land_ffff, land_ff]
    split_ifs <;> omega
  have hhigh : readByte (writeWord m a v) ((a + 1) &&& 0xFFFF) = v / 256 % 256 := by
    simp only [readByte, writeWord, writeByte, land_ffff, land_ff,
      Nat.shiftRight_eq_div_pow, show (2 : Nat) ^ 8 = 256 from by norm_num]
    split_ifs <;> omega
  simp only [readWord, hlow, hhigh]
  rw [shiftLeft8_or _ _ (Nat.mod_lt v (by norm_num))]
  omega

/-- The constructed machine satisfies the width invariants. -/
theorem Inv_mkZ80 : Inv mkZ80 := by
  refine ⟨by decide, ?_⟩
  intro ad
  norm_num [mkZ80]

/-- For boolean flags, unpacking the packed F byte recovers the flags, and
the packed byte has bits 3 and 5 clear. -/
theorem packF_props (f : Flags) (hb : FlagsBool f) :
    unpackF (packF f) = f ∧ packF f &&& 0x28 = 0 := by
  obtain ⟨s, z, hf, pv, n, c⟩ := f
  obtain ⟨hs, hz, hh, hpv, hn, hc⟩ := hb
  interval_cases s <;> interval_cases z <;> interval_cases hf <;>
    interval_cases pv <;> interval_cases n <;> interval_cases c <;> decide

set_option maxRecDepth 4000 in
/-- Packing after unpacking restricts a byte to the six defined flag bits. -/
theorem packF_unpackF_byte : ∀ b < 256, packF (unpackF b) = b &&& 0xD7 := by decide

/-- C5: executing `step()` with the HALT opcode at PC sets `halted`; a
`step()` from a halted machine returns false and changes nothing; a `step()`
from a non-halted machine returns true. -/
theorem c5_halt_step (m mh mr : Machine) (h1 : m.halted = false)
    (h2 : readByte m m.pc = 0x76) (h3 : mh.halted = true) (h4 : mr.halted = false) :
    (step m).2.halted = true ∧ (step m).1 = true ∧
    step mh = (false, mh) ∧ (step mr).1 = true := by
  refine ⟨?_, ?_, ?_, ?_⟩
  · simp [step, executeInstruction, h1, h2]
  · simp [step, h1]
  · simp [step, h3]
  · simp [step, h4]

/-- Witness for C5 at the HALT machine and its halted successor. -/
theorem c5_halt_step_witness :
    mHaltOp.halted = false ∧ readByte mHaltOp mHaltOp.pc = 0x76 ∧
    (step mHaltOp).2.halted = true ∧ mHaltOp.halted = false ∧
    ((step mHaltOp).2.halted = true ∧ (step mHaltOp).1 = true ∧
      step (step mHaltOp).2 = (false, (step mHaltOp).2) ∧ (step mHaltOp).1 = true) :=
  ⟨by decide, by decide, by decide, by decide,
    c5_halt_step mHaltOp (step mHaltOp).2 mHaltOp (by decide) (by decide) (by decide) (by decide)⟩

/-- C6: for boolean flag assignments `setF(getF())` is the identity on the
machine and bits 3 and 5 of `getF()` read 0; for every byte `b`, `getF()`
after `setF(b)` is `b` restricted to the six defined flag bits. -/
theorem c6_flags_roundtrip (m : Machine) (hb : FlagsBool m.flags) :
    setF m (getF m) = m ∧ getF m &&& 0x28 = 0 ∧
    (∀ b < 256, getF (setF m b) = b &&& 0xD7) := by
  obtain ⟨h1, h2⟩ := packF_props m.flags hb
  refine ⟨?_, h2, ?_⟩
  · show { m with flags := unpackF (packF m.flags) } = m
    rw [h1]
  · intro b hbb
    exact packF_unpackF_byte b hbb

/-- Witness for C6 at a sample flag setting. -/
theorem c6_flags_roundtrip_witness :
    FlagsBool mFlags.flags ∧
    (setF mFlags (getF mFlags) = mFlags ∧ getF mFlags &&& 0x28 = 0 ∧
      (∀ b < 256, getF (setF mFlags b) = b &&& 0xD7)) :=
  ⟨by decide, c6_flags_roundtrip mFlags (by decide)⟩

/-- C7: the little-endian word round-trip: after `writeWord(a, v)`,
`readWord(a)` returns `v mod 65536`, the low byte sits at `a mod 65536` and
the high byte at `(a + 1) mod 65536` (so `a = 0xFFFF` wraps into 0x0000). -/
theorem c7_word_roundtrip (m : Machine) (a v : Nat) :
    readWord (writeWord m a v) a = v % 65536 ∧
    (writeWord m a v).memory (a % 65536) = v % 256 ∧
    (writeWord m a v).memory ((a + 1) % 65536) = v % 65536 / 256 := by
  refine ⟨readWord_writeWord m a v, ?_, ?_⟩
  · simp only [writeWord, writeByte, land_ffff, land_ff]
    split_ifs <;> omega
  · simp only [writeWord, writeByte, land_ffff, land_ff, Nat.shiftRight_eq_div_pow,
      show (2 : Nat) ^ 8 = 256 from by norm_num]
    split_ifs <;> omega

/-- C8: on any opcode other than 0x00, 0x3E and 0x76, a non-halted `step()`
returns true, advances PC by one mod 65536 and changes nothing else. -/
theorem c8_unknown_opcode (m : Machine) (h1 : m.halted = false)
    (h2 : readByte m m.pc ≠ 0x00) (h3 : readByte m m.pc ≠ 0x3E)
    (h4 : readByte m m.pc ≠ 0x76) :
    (step m).1 = true ∧ (step m).2 = { m with pc := (m.pc + 1) % 65536 } := by
  constructor
  · simp [step, h1]
  · have hh : step m =
        (true, executeInstruction { m with pc := (m.pc + 1) &&& 0xFFFF } (readByte m m.pc)) := by
      simp [step, h1]
    rw [hh]
    simp only [executeInstruction, if_neg h2, if_neg h3, if_neg h4, land_ffff]

/-- Witness for C8 at opcode 0x01. -/
theorem c8_unknown_opcode_witness :
    mUnknownOp.halted = false ∧ readByte mUnknownOp mUnknownOp.pc ≠ 0x00 ∧
    readByte mUnknownOp mUnknownOp.pc ≠ 0x3E ∧ readByte mUnknownOp mUnknownOp.pc ≠ 0x76 ∧
    ((step mUnknownOp).1 = true ∧
      (step mUnknownOp).2 = { mUnknownOp with pc := (mUnknownOp.pc + 1) % 65536 }) :=
  ⟨by decide, by decide, by decide, by decide,
    c8_unknown_opcode mUnknownOp (by decide) (by decide) (by decide) (by decide)⟩

/-- C9: a push followed by a pop yields the pushed value mod 65536 and
restores SP, for every 16-bit SP (wrapping included). -/
theorem c9_push_pop (m : Machine) (v : Nat) (hsp : m.sp < 65536) :
    (popStack (pushStack m v)).1 = v % 65536 ∧
    (popStack (pushStack m v)).2.sp = m.sp := by
  have hsp1 : (pushStack m v).sp = (((m.sp : Int) - 2) % 65536).toNat := by
    simp [pushStack, writeWord, writeByte]
  constructor
  · show readWord (pushStack m v) (pushStack m v).sp = v % 65536
    rw [hsp1]
    exact readWord_writeWord { m with sp := (((m.sp : Int) - 2) % 65536).toNat }
      ((((m.sp : Int) - 2) % 65536).toNat) v
  · show ((pushStack m v).sp + 2) &&& 0xFFFF = m.sp
    rw [hsp1, land_ffff]
    omega

/-- Witness for C9 at SP = 1 (the decrement wraps past zero). -/
theorem c9_push_pop_witness :
    mSpOne.sp < 65536 ∧
    ((popStack (pushStack mSpOne 0x1234)).1 = 0x1234 % 65536 ∧
      (popStack (pushStack mSpOne 0x1234)).2.sp = mSpOne.sp) :=
  ⟨by decide, c9_push_pop mSpOne 0x1234 (by decide)⟩

/-- C10: `reset()` leaves memory, the breakpoint set and the remaining debug
fields untouched, and modifies exactly the registers, flags, PC, SP,
`halted` and `interruptsEnabled`. -/
theorem c10_reset_frame (m : Machine) :
    (reset m).memory = m.memory ∧ (reset m).breakpoints = m.breakpoints ∧
    (reset m).isDebugging = m.isDebugging ∧ (reset m).stepMode = m.stepMode ∧
    reset m = { m with
      a := 0, b := 0, c := 0, d := 0, e := 0, h := 0, l := 0,
      a_prime := 0, b_prime := 0, c_prime := 0, d_prime := 0,
      e_prime := 0, h_prime := 0, l_prime := 0,
      i := 0, r := 0, ix := 0, iy := 0,
      flags := Flags.zero, flags_prime := Flags.zero,
      pc := 0, sp := 0xFFFF, halted := false, interruptsEnabled := false } :=
  ⟨rfl, rfl, rfl, rfl, rfl⟩

/-- C2 counterexample: `setState` stores a supplied register value without
masking, so register A ends up holding 256, outside [0, 255]. -/
theorem c2_counterexample :
    (setState mkZ80 overflowUpdate).a = 256 ∧ ¬ (setState mkZ80 overflowUpdate).a < 256 := by
  decide

/-- C2 (amended): the register-pair setters, `setF`, `reset`,
`exchangeRegisterSets` and `step` preserve the register-width invariant,
and `setState` masks its top-level `pc` and `sp` inputs to 16 bits — but a
register value supplied through `state.registers` is stored unmasked. -/
theorem c2_amended (m : Machine) (v : Nat) (hm : Inv m) :
    Inv (setBC m v) ∧ Inv (setDE m v) ∧ Inv (setHL m v) ∧ Inv (setF m v) ∧
    Inv (reset m) ∧ Inv (exchangeRegisterSets m) ∧ Inv (step m).2 ∧
    (∀ st : StateUpdate, ∀ w, st.pc = some w → (setState m st).pc = w % 65536) ∧
    (∀ st : StateUpdate, ∀ w, st.sp = some w → (setState m st).sp = w % 65536) ∧
    (∀ ru : RegistersUpdate, ∀ w, ru.a = some w →
      (setState m { registers := some ru }).a = w) := by
  obtain ⟨⟨ha, hb2, hc, hd, he, hh, hl, hap, hbp, hcp, hdp, hep, hhp, hlp,
    hi, hr, hix, hiy, hsp, hpc⟩, hmem⟩ := hm
  refine ⟨⟨⟨ha, and_ff_lt _, and_ff_lt _, hd, he, hh, hl, hap, hbp, hcp, hdp, hep, hhp, hlp,
      hi, hr, hix, hiy, hsp, hpc⟩, hmem⟩,
    ⟨⟨ha, hb2, hc, and_ff_lt _, and_ff_lt _, hh, hl, hap, hbp, hcp, hdp, hep, hhp, hlp,
      hi, hr, hix, hiy, hsp, hpc⟩, hmem⟩,
    ⟨⟨ha, hb2, hc, hd, he, and_ff_lt _, and_ff_lt _, hap, hbp, hcp, hdp, hep, hhp, hlp,
      hi, hr, hix, hiy, hsp, hpc⟩, hmem⟩,
    ⟨⟨ha, hb2, hc, hd, he, hh, hl, hap, hbp, hcp, hdp, hep, hhp, hlp,
      hi, hr, hix, hiy, hsp, hpc⟩, hmem⟩,
    ⟨by simp [reset], hmem⟩,
    ⟨⟨hap, hbp, hcp, hdp, hep, hhp, hlp, ha, hb2, hc, hd, he, hh, hl,
      hi, hr, hix, hiy, hsp, hpc⟩, hmem⟩,
    ?_, ?_, ?_, ?_⟩
  · by_cases hhal : m.halted = true
    · have hs : (step m).2 = m := by simp [step, hhal]
      rw [hs]
      exact ⟨⟨ha, hb2, hc, hd, he, hh, hl, hap, hbp, hcp, hdp, hep, hhp, hlp,
        hi, hr, hix, hiy, hsp, hpc⟩, hmem⟩
    · have hs : (step m).2 =
          executeInstruction { m with pc := (m.pc + 1) &&& 0xFFFF } (readByte m m.pc) := by
        simp [step, hhal]
      rw [hs]
      unfold executeInstruction
      split_ifs
      · exact ⟨⟨ha, hb2, hc, hd, he, hh, hl, hap, hbp, hcp, hdp, hep, hhp, hlp,
          hi, hr, hix, hiy, hsp, and_ffff_lt _⟩, hmem⟩
      · exact ⟨⟨hmem _, hb2, hc, hd, he, hh, hl, hap, hbp, hcp, hdp, hep, hhp, hlp,
          hi, hr, hix, hiy, hsp, and_ffff_lt _⟩, hmem⟩
      · exact ⟨⟨ha, hb2, hc, hd, he, hh, hl, hap, hbp, hcp, hdp, hep, hhp, hlp,
          hi, hr, hix, hiy, hsp, and_ffff_lt _⟩, hmem⟩
      · exact ⟨⟨ha, hb2, hc, hd, he, hh, hl, hap, hbp, hcp, hdp, hep, hhp, hlp,
          hi, hr, hix, hiy, hsp, and_ffff_lt _⟩, hmem⟩
  · intro st w hw
    obtain ⟨oreg, ofl, opc, osp, ohal, oie⟩ := st
    obtain rfl : opc = some w := hw
    rcases oreg with _ | ru <;> rcases ofl with _ | fu <;> rcases osp with _ | w2 <;>
      rcases ohal with _ | b1 <;> rcases oie with _ | b2 <;> simp [setState, land_ffff]
  · intro st w hw
    obtain ⟨oreg, ofl, opc, osp, ohal, oie⟩ := st
    obtain rfl : osp = some w := hw
    rcases oreg with _ | ru <;> rcases ofl with _ | fu <;> rcases opc with _ | w2 <;>
      rcases ohal with _ | b1 <;> rcases oie with _ | b2 <;> simp [setState, land_ffff]
  · intro ru w hw
    simp [setState, hw]

/-- Witness for C2 (amended) at the constructed machine and value 300. -/
theorem c2_amended_witness :
    Inv mkZ80 ∧
    (Inv (setBC mkZ80 300) ∧ Inv (setDE mkZ80 300) ∧ Inv (setHL mkZ80 300) ∧
      Inv (setF mkZ80 300) ∧ Inv (reset mkZ80) ∧ Inv (exchangeRegisterSets mkZ80) ∧
      Inv (step mkZ80).2 ∧
      (∀ st : StateUpdate, ∀ w, st.pc = some w → (setState mkZ80 st).pc = w % 65536) ∧
      (∀ st : StateUpdate, ∀ w, st.sp = some w → (setState mkZ80 st).sp = w % 65536) ∧
      (∀ ru : RegistersUpdate, ∀ w, ru.a = some w →
        (setState mkZ80 { registers := some ru }).a = w)) :=
  ⟨Inv_mkZ80, c2_amended mkZ80 300 Inv_mkZ80⟩

/-- C3 counterexample: with the current PC already in the breakpoint set,
`run()` stops immediately: zero instructions execute and PC does not
advance to 0x0001, so the first iteration is not exempt from the breakpoint
check. -/
theorem c3_counterexample :
    (runCount 10 mBpAtPc).map (fun p => (p.1.pc, p.2)) = some (0, 0) ∧
    (run 10 mBpAtPc).map Machine.pc ≠ some 1 := by decide

/-- C3 (amended): the breakpoint check applies on every iteration of
`run()`, the first included: whenever the machine is not halted and the
current PC is in the breakpoint set, `run()` returns at once with zero
instructions executed, only marking `isDebugging`. -/
theorem c3_amended (m : Machine) (fuel : Nat) (h1 : m.halted = false)
    (h2 : m.breakpoints.contains m.pc = true) :
    run (fuel + 1) m = some { m with isDebugging := true } ∧
    runCount (fuel + 1) m = some ({ m with isDebugging := true }, 0) := by
  have h2m : m.pc ∈ m.breakpoints := by simpa using h2
  have hloop : runLoop (fuel + 1) { m with isDebugging := false } 0 =
      some ({ m with isDebugging := true }, 0) := by
    unfold runLoop
    simp [h1, h2m]
  exact ⟨by simp [run, hloop], by simp [runCount, hloop]⟩

/-- Witness for C3 (amended) at the reset machine with a breakpoint at PC. -/
theorem c3_amended_witness :
    mBpAtPc.halted = false ∧ mBpAtPc.breakpoints.contains mBpAtPc.pc = true ∧
    (run 10 mBpAtPc = some { mBpAtPc with isDebugging := true } ∧
      runCount 10 mBpAtPc = some ({ mBpAtPc with isDebugging := true }, 0)) :=
  ⟨by decide, by decide, c3_amended mBpAtPc 9 (by decide) (by decide)⟩

/-- C4: from the reset scenario machine (breakpoint at 0x0004, four NOPs
then HALT at 0x0000), `run()` stops with PC = 0x0004, not halted, after
exactly four executed instructions. -/
theorem c4_breakpoint_scenario :
    (run 20 mBpScenario).map (fun mm => (mm.pc, mm.halted)) = some (4, false) ∧
    (runCount 20 mBpScenario).map Prod.snd = some 4 := by decide

end Z80

namespace Z80.Snapshot

/-- C1 (code behavior at the failing input): on a fresh core the snapshot
returned by `getState()` holds, in its `registers.flags` entry, the very
reference the live machine holds, and assigning 1 to
`snapshot.registers.flags.s` changes the live machine's S flag from 0 to 1:
the snapshot is not an independent deep copy. -/
theorem c1_shallow_copy_bug :
    (getState mkJS).registers.flags = mkJS.registers.flags ∧
    liveFlagS mkJS = 0 ∧
    liveFlagS (writeSnapFlagS mkJS (getState mkJS) 1) = 1 := by decide

end Z80.Snapshot
